import Mathlib

/-!
Shallow embedding of `src/source_files/main.py` (TermiCOM / WolfWire COM-port
middleman) and verification of the specification's claims about it.

Conventions of the embedding:
* Python integers are `Int` (arbitrary precision, as in Python); byte values
  (elements of a `bytearray`) are `Nat` and are `< 256` wherever they arise.
* Python float arithmetic in the timing derivation and in the flush comparison
  is modelled exactly over `ℚ`; `int(x)` on a nonnegative value is floor.
  In particular `flush_gap_ns * 1.5 <= (now - last)` is modelled as
  `3 * flush_gap_ns <= 2 * (now - last)`.
* Effects (mutex lock/unlock, signal emission, serial writes, buffer updates)
  are recorded as explicit action traces so that ordering and lock-bracketing
  claims can be stated; the possibility that `dest_conn.write` or
  `log_signal.emit` raises is an explicit boolean input of each operation.
-/

namespace TermiCOM

/-- Direction of a forwarder: the Python constructor receives the string
codes used by the application. -/
inductive Direction where
  | AtoB
  | BtoA
deriving DecidableEq, Fintype

/-- The string the Python code stores in `self.direction`. -/
def dirName : Direction → String
  | .AtoB => "AtoB"
  | .BtoA => "BtoA"

/-- A `(text, color)` pair as carried by `log_signal = pyqtSignal(str, str)`. -/
structure LogEvent where
  text : String
  color : String
deriving DecidableEq

/-- The fields of `datetime.now()` that `strftime("%d/%m/%Y %H:%M:%S.%f")`
reads. -/
structure Timestamp where
  day : Nat
  month : Nat
  year : Nat
  hour : Nat
  minute : Nat
  second : Nat
  microsecond : Nat
deriving DecidableEq

/-- Zero-pad the decimal rendering of `n` to width `w`, as Python's
`strftime` field formatting does. -/
def pad (w n : Nat) : String :=
  let s := toString n
  String.mk (List.replicate (w - s.length) '0') ++ s

/-- `datetime.now().strftime("%d/%m/%Y %H:%M:%S.%f")` applied to a concrete
time value (main.py line 64). -/
def strftime (t : Timestamp) : String :=
  pad 2 t.day ++ "/" ++ pad 2 t.month ++ "/" ++ pad 4 t.year ++ " " ++
    pad 2 t.hour ++ ":" ++ pad 2 t.minute ++ ":" ++ pad 2 t.second ++ "." ++
    pad 6 t.microsecond

/-- One uppercase hexadecimal digit, `0`-`9` then `A`-`F`. -/
def hexDigit (n : Nat) : Char :=
  if n < 10 then Char.ofNat (48 + n) else Char.ofNat (55 + n)

/-- Python `f'{b:02X}'` for a bytearray element `b` (so `b < 256`):
two uppercase hex digits, zero padded (main.py line 60). -/
def byteHex (b : Nat) : String :=
  String.mk [hexDigit (b / 16), hexDigit (b % 16)]

/-- The sixteen characters that may appear in an uppercase hex octet. -/
def hexChars : List Char :=
  ['0', '1', '2', '3', '4', '5', '6', '7', '8', '9', 'A', 'B', 'C', 'D', 'E', 'F']

/-- Immutable per-worker configuration produced by
`SerialForwarderThread.__init__` (main.py lines 26-52).  `has_mutex` records
whether `ui_log_mutex` is not `None` (the application always passes a shared
`QMutex`). -/
structure SerialForwarderThread where
  direction : Direction
  baud : Int
  bits_per_char : Int
  char_time_ns : Int
  flush_gap_ns : Int
  poll_interval_s : ℚ
  has_mutex : Bool

/-- `SerialForwarderThread.__init__` (main.py lines 41-45):
`baud = max(int(baud), 300)`, `bits_per_char = max(int(bits_per_char), 9)`,
`char_time_ns = int(1e9 * bits_per_char / baud)`,
`flush_gap_ns = max(char_time_ns * max(gap_chars, 1), 100_000)`,
`poll_interval_s = max(char_time_ns / 2 / 1e9, 0.0005)`.
All quantities are positive, so `int()` of the float quotient is the floor
of the exact quotient, modelled by integer division. -/
def mkForwarder (direction : Direction) (baud bits_per_char gap_chars : Int)
    (has_mutex : Bool) : SerialForwarderThread :=
  let baud' := max baud 300
  let bits' := max bits_per_char 9
  let char_time := (1000000000 * bits') / baud'
  { direction := direction
    baud := baud'
    bits_per_char := bits'
    char_time_ns := char_time
    flush_gap_ns := max (char_time * max gap_chars 1) 100000
    poll_interval_s := max ((char_time : ℚ) / 2 / 1000000000) (1 / 2000)
    has_mutex := has_mutex }

/-- Mutable worker state: `msg_buffer`, `msg_start_ns`, `last_rx_ns`
(main.py lines 47-49). -/
structure WorkerState where
  msg_buffer : List Nat
  msg_start_ns : Int
  last_rx_ns : Int
deriving DecidableEq

/-- The state right after `__init__`: empty buffer, both timestamps zero. -/
def initState : WorkerState := ⟨[], 0, 0⟩

/-- One observable effect of the worker, in program order: state mutations of
the frame-timing bookkeeping, the attempted `dest_conn.write`, and the
mutex/signal operations of an emission. -/
inductive WAction where
  | setMsgStart (t : Int)
  | bufExtend (data : List Nat)
  | setLastRx (t : Int)
  | writeAttempt (data : List Nat) (ok : Bool)
  | lockAcq
  | emitA (e : LogEvent) (raises : Bool)
  | lockRel
deriving DecidableEq

/-- The lock-wrapped emission pattern shared by all three emission sites
(main.py lines 68-74, 95-101, 123-129): lock if a mutex is present,
emit inside `try`, unlock in `finally` (so the unlock happens even when the
emit raises).  Returns the action trace and the successfully delivered
events. -/
def emitLocked (cfg : SerialForwarderThread) (e : LogEvent) (raises : Bool) :
    List WAction × List LogEvent :=
  ((if cfg.has_mutex then [WAction.lockAcq] else []) ++
      [WAction.emitA e raises] ++
      (if cfg.has_mutex then [WAction.lockRel] else []),
   if raises then [] else [e])

/-- Result of one worker operation: the new state, the events delivered
through `log_signal`, the effect trace, and whether the operation
propagates an exception to its caller. -/
structure StepOut where
  state : WorkerState
  events : List LogEvent
  actions : List WAction
  raises : Bool

/-- The frame color chosen in `_flush_frame_if_due` (main.py line 63). -/
def frameColor (cfg : SerialForwarderThread) : String :=
  if cfg.direction = .AtoB then "#f44250" else "#4285f4"

/-- The consolidated log line built in `_flush_frame_if_due`
(main.py lines 60-65, 71): `f"{tag} {timestamp} : {hex_data}\n"`. -/
def frameText (cfg : SerialForwarderThread) (msg_buffer : List Nat)
    (ts : Timestamp) : String :=
  let hex_data := String.intercalate " " (msg_buffer.map byteHex)
  let tag := if cfg.direction = .AtoB then "[A->B]" else "[A<-B]"
  tag ++ " " ++ strftime ts ++ " : " ++ hex_data ++ "\n"

/-- `SerialForwarderThread._flush_frame_if_due(now_ns)` (main.py lines 54-78).
Returns unchanged state when the buffer is empty or the idle gap
`now_ns - last_rx_ns` has not reached `flush_gap_ns * 1.5` (exact rational
comparison, cleared of denominators).  When the flush fires it emits one
consolidated event under the lock and then clears the buffer and resets both
timestamps; if the emit raises, the `finally` still unlocks, the exception
propagates, and the clearing statements after the `try` never run. -/
def flush_frame_if_due (cfg : SerialForwarderThread) (st : WorkerState)
    (now_ns : Int) (ts : Timestamp) (emit_raises : Bool) : StepOut :=
  if st.msg_buffer = [] then ⟨st, [], [], false⟩
  else if 3 * cfg.flush_gap_ns ≤ 2 * (now_ns - st.last_rx_ns) then
    let e : LogEvent := ⟨frameText cfg st.msg_buffer ts, frameColor cfg⟩
    let emitted := emitLocked cfg e emit_raises
    if emit_raises then ⟨st, emitted.2, emitted.1, true⟩
    else ⟨⟨[], 0, 0⟩, emitted.2, emitted.1, false⟩
  else ⟨st, [], [], false⟩

/-- The one-shot error line of a failed destination write
(main.py line 98): `f"[ERROR] write({self.direction}) -> {e}\n"`. -/
def errWriteText (cfg : SerialForwarderThread) (emsg : String) : String :=
  "[ERROR] write(" ++ dirName cfg.direction ++ ") -> " ++ emsg ++ "\n"

/-- `SerialForwarderThread._append_rx(data, now_ns)` (main.py lines 80-101).
For non-empty `data`: record the start-of-frame timestamp if the buffer was
empty, extend the buffer, set `last_rx_ns`, then attempt the destination
write.  `write_ok` tells whether `dest_conn.write` succeeds; on failure the
worker emits one error event (message `emsg`) under the lock and keeps
going.  `emit_raises` tells whether that `log_signal.emit` call raises, in
which case the exception propagates out of `_append_rx`. -/
def append_rx (cfg : SerialForwarderThread) (st : WorkerState)
    (data : List Nat) (now_ns : Int) (write_ok : Bool) (emsg : String)
    (emit_raises : Bool) : StepOut :=
  if data = [] then ⟨st, [], [], false⟩
  else
    let startActs := if st.msg_buffer = [] then [WAction.setMsgStart now_ns] else []
    let st1 : WorkerState :=
      ⟨st.msg_buffer ++ data,
       if st.msg_buffer = [] then now_ns else st.msg_start_ns,
       now_ns⟩
    let baseActs := startActs ++ [WAction.bufExtend data, WAction.setLastRx now_ns]
    if write_ok then
      ⟨st1, [], baseActs ++ [WAction.writeAttempt data true], false⟩
    else
      let e : LogEvent := ⟨errWriteText cfg emsg, "red"⟩
      let emitted := emitLocked cfg e emit_raises
      ⟨st1, emitted.2,
       baseActs ++ [WAction.writeAttempt data false] ++ emitted.1,
       emit_raises⟩

/-- External inputs of one iteration of `run`'s loop body
(main.py lines 106-119): the `in_waiting` count, the bytes the `read`
returned, the `time.time_ns()` value, the wall-clock reading used for the
log line if a flush fires, and the failure switches of the write / emit. -/
structure PollInput where
  in_wait : Nat
  data : List Nat
  now_ns : Int
  ts : Timestamp
  write_ok : Bool
  write_err : String
  emit_raises : Bool

/-- One iteration of the `while self.running` loop body, up to the
`time.sleep` (main.py lines 107-116): if `in_waiting` is non-zero, read and
(when the read returned data) append/forward; otherwise check whether a
frame is due to flush. -/
def runStep (cfg : SerialForwarderThread) (st : WorkerState)
    (inp : PollInput) : StepOut :=
  if inp.in_wait ≠ 0 then
    if inp.data ≠ [] then
      append_rx cfg st inp.data inp.now_ns inp.write_ok inp.write_err inp.emit_raises
    else ⟨st, [], [], false⟩
  else flush_frame_if_due cfg st inp.now_ns inp.ts inp.emit_raises

/-- The error line of the outer loop handler (main.py line 126):
`f"[ERROR] Forwarding error ({self.direction}): {e}\n"`. -/
def loopErrorText (cfg : SerialForwarderThread) (emsg : String) : String :=
  "[ERROR] Forwarding error (" ++ dirName cfg.direction ++ "): " ++ emsg ++ "\n"

/-- The `except` handler of the loop body (main.py lines 121-129): one
lock-wrapped error emission (then a 0.2 s sleep, irrelevant here). -/
def loop_error_handler (cfg : SerialForwarderThread) (emsg : String)
    (emit_raises : Bool) : List WAction × List LogEvent :=
  emitLocked cfg ⟨loopErrorText cfg emsg, "red"⟩ emit_raises

/-- The final flush after the loop exits (main.py lines 132-136):
`self._flush_frame_if_due(time.time_ns() + self.flush_gap_ns + 1)` wrapped
in `try ... except Exception: pass`, where `t_now` is the `time.time_ns()`
reading at shutdown. -/
def final_flush (cfg : SerialForwarderThread) (st : WorkerState)
    (t_now : Int) (ts : Timestamp) (emit_raises : Bool) : StepOut :=
  let out := flush_frame_if_due cfg st (t_now + cfg.flush_gap_ns + 1) ts emit_raises
  ⟨out.state, out.events, out.actions, false⟩

/-! Supervisor: `SerialMiddlemanApp.connect_ports` / `disconnect_ports`. -/

/-- The application fields relevant to the endpoint/worker lifecycle:
`serial_A` / `serial_B` are `none` when the Python attribute is `None`,
otherwise `some isOpen`; `thread_AtoB` / `thread_BtoA` record whether a
worker object is held. -/
structure AppState where
  serial_A : Option Bool
  serial_B : Option Bool
  thread_AtoB : Bool
  thread_BtoA : Bool
deriving DecidableEq

/-- One observable lifecycle effect of the supervisor. -/
inductive SupAction where
  | openPortA
  | openPortB
  | closePortA
  | closePortB
  | showError
  | startWorker (d : Direction)
  | stopWorker (d : Direction)
  | waitWorker (d : Direction)
deriving DecidableEq

/-- The guarded close pattern `if self.serial_X and self.serial_X.is_open:
self.serial_X.close()` used in the connect cleanup (main.py lines 433-442)
and in `disconnect_ports` (lines 483-486). -/
def closeIfOpen (h : Option Bool) (act : SupAction) : List SupAction :=
  match h with
  | some true => [act]
  | _ => []

/-- `SerialMiddlemanApp.connect_ports`, from the port-open attempt onward
(main.py lines 426-459); the preceding selection validation is assumed
passed.  `openA_ok` / `openB_ok` tell whether each `serial.Serial(...)`
constructor succeeds.  If the first raises, `self.serial_A` keeps its prior
value; the `except` branch shows the error, closes whichever handles are
open, sets both attributes to `None` and returns before any worker is
created.  On success both workers are created and started. -/
def connect_ports (st : AppState) (openA_ok openB_ok : Bool) :
    AppState × List SupAction :=
  if openA_ok = false then
    ({st with serial_A := none, serial_B := none},
     [SupAction.showError] ++ closeIfOpen st.serial_A SupAction.closePortA ++
       closeIfOpen st.serial_B SupAction.closePortB)
  else if openB_ok = false then
    let stA := {st with serial_A := some true}
    ({stA with serial_A := none, serial_B := none},
     [SupAction.openPortA, SupAction.showError] ++
       closeIfOpen stA.serial_A SupAction.closePortA ++
       closeIfOpen stA.serial_B SupAction.closePortB)
  else
    ({st with serial_A := some true, serial_B := some true,
              thread_AtoB := true, thread_BtoA := true},
     [SupAction.openPortA, SupAction.openPortB,
      SupAction.startWorker .AtoB, SupAction.startWorker .BtoA])

/-- `SerialMiddlemanApp.disconnect_ports` (main.py lines 471-488): for each
held worker, `stop()` then `wait()` (QThread join: returns only after
`run()` has finished, final flush included); afterwards close each open
serial; all four attributes are reset. -/
def disconnect_ports (st : AppState) : AppState × List SupAction :=
  let tActs :=
    (if st.thread_AtoB then
      [SupAction.stopWorker .AtoB, SupAction.waitWorker .AtoB] else []) ++
    (if st.thread_BtoA then
      [SupAction.stopWorker .BtoA, SupAction.waitWorker .BtoA] else [])
  let cActs := closeIfOpen st.serial_A SupAction.closePortA ++
    closeIfOpen st.serial_B SupAction.closePortB
  (⟨none, none, false, false⟩, tActs ++ cActs)

/-! Claim-side predicates used to state the spec's properties. -/

/-- Frame-timing bookkeeping actions: accumulator append, start-timestamp
update, last-received-timestamp update. -/
def isTimingAct : WAction → Bool
  | .setMsgStart _ => true
  | .bufExtend _ => true
  | .setLastRx _ => true
  | _ => false

/-- Destination-write actions. -/
def isWriteAct : WAction → Bool
  | .writeAttempt _ _ => true
  | _ => false

/-- Every emission in the trace is immediately bracketed as
lock-acquire, emit, lock-release, and no stray lock action occurs. -/
def emitsLocked : List WAction → Bool
  | [] => true
  | WAction.lockAcq :: WAction.emitA _ _ :: WAction.lockRel :: rest => emitsLocked rest
  | WAction.lockAcq :: _ => false
  | WAction.lockRel :: _ => false
  | WAction.emitA _ _ :: _ => false
  | _ :: rest => emitsLocked rest

/-- Endpoint-closing supervisor actions. -/
def isCloseAct : SupAction → Bool
  | .closePortA => true
  | .closePortB => true
  | _ => false

/-- Worker stop/join supervisor actions. -/
def isStopOrWaitAct : SupAction → Bool
  | .stopWorker _ => true
  | .waitWorker _ => true
  | _ => false

/-- The worker-state invariant of claim C10: the accumulator is empty
exactly when the start timestamp is 0 and exactly when the last-received
timestamp is 0. -/
def WInv (st : WorkerState) : Prop :=
  (st.msg_buffer = [] ↔ st.msg_start_ns = 0) ∧
    (st.msg_buffer = [] ↔ st.last_rx_ns = 0)

instance (st : WorkerState) : Decidable (WInv st) := by
  unfold WInv; infer_instance

/-! Theorems. -/

/-- Integer division of a nonnegative integer by a positive integer is the
floor of the exact rational quotient. -/
theorem floorDivHelper (n b : Int) (hb : 0 < b) :
    ⌊(n : ℚ) / (b : ℚ)⌋ = n / b := by
  have hbn : ((b.toNat : ℕ) : ℤ) = b := Int.toNat_of_nonneg hb.le
  have h1 : ((b.toNat : ℕ) : ℚ) = (b : ℚ) := by
    exact_mod_cast hbn
  calc ⌊(n : ℚ) / (b : ℚ)⌋ = ⌊(n : ℚ) / ((b.toNat : ℕ) : ℚ)⌋ := by rw [h1]
    _ = n / ((b.toNat : ℕ) : ℤ) := Rat.floor_intCast_div_natCast n b.toNat
    _ = n / b := by rw [hbn]

/-- The worker configuration the application builds at 9600 baud
(`gap_chars=3, bits_per_char=10`, shared mutex present):
`char_time_ns = 1041666`, `flush_gap_ns = 3124998`,
`poll_interval_s = 520833/10^9`. -/
def cfg96 : SerialForwarderThread := mkForwarder .AtoB 9600 10 3 true

/-- A 115200-baud, `gap_chars=1` configuration whose flush gap is the
100 µs floor (`char_time_ns = 86805`, `flush_gap_ns = 100000`). -/
def cfgHi : SerialForwarderThread := mkForwarder .AtoB 115200 10 1 true

/-- A concrete wall-clock reading for concrete evaluations. -/
def ts0 : Timestamp := ⟨11, 10, 2026, 14, 30, 5, 123456⟩

/-- C3: for every constructor input, after clamping (`baud ≥ 300`,
`bitsPerChar ≥ 9`, `gapChars ≥ 1`), the derived timing satisfies
`charTime = ⌊1e9 * bitsPerChar / baud⌋` ns,
`flushGap = max (charTime * gapChars) 100000 ≥ 100000` ns, and
`pollInterval = max (charTime / 2 / 1e9) 0.0005 ≥ 0.0005` s. -/
theorem C3_timing_derivation (d : Direction) (baud bits_per_char gap_chars : Int)
    (hm : Bool) :
    let cfg := mkForwarder d baud bits_per_char gap_chars hm
    300 ≤ cfg.baud ∧ 9 ≤ cfg.bits_per_char ∧
    (cfg.char_time_ns : Int) = ⌊(1000000000 * (cfg.bits_per_char : ℚ)) / (cfg.baud : ℚ)⌋ ∧
    cfg.flush_gap_ns = max (cfg.char_time_ns * max gap_chars 1) 100000 ∧
    100000 ≤ cfg.flush_gap_ns ∧
    cfg.poll_interval_s = max ((cfg.char_time_ns : ℚ) / 2 / 1000000000) (1 / 2000) ∧
    (1 / 2000 : ℚ) ≤ cfg.poll_interval_s := by
  intro cfg
  have hb : (300 : Int) ≤ max baud 300 := le_max_right _ _
  refine ⟨hb, le_max_right _ _, ?_, rfl, le_max_right _ _, rfl, le_max_right _ _⟩
  have hbpos : (0 : Int) < max baud 300 := lt_of_lt_of_le (by norm_num) hb
  have := floorDivHelper (1000000000 * max bits_per_char 9) (max baud 300) hbpos
  rw [show ((1000000000 * max bits_per_char 9 : Int) : ℚ) =
      1000000000 * ((max bits_per_char 9 : Int) : ℚ) by push_cast; ring] at this
  exact this.symm

/-- C4, counterexample: the code's flush comparison is `>=`, so at an idle
time exactly equal to `1.5 * flushGap` (here 150000 ns against the 100000 ns
gap of `cfgHi`) the flush fires even though the idle time does not strictly
exceed `1.5 * flushGap`; the claim's "exceeds" if-and-only-if is false at
this input. -/
theorem C4_strict_exceeds_counterexample :
    ¬ (((flush_frame_if_due cfgHi ⟨[65], 1000000, 1000000⟩ 1150000 ts0
          false).events ≠ []) ↔
        (([65] : List Nat) ≠ [] ∧
          3 * cfgHi.flush_gap_ns < 2 * ((1150000 : Int) - 1000000))) := by
  decide

/-- C4 (amended): a flush fires if and only if the accumulator is non-empty
and the idle time since the last received byte is at least (`>=`, not
strictly greater than) `1.5 * flushGap`; and on loop iterations where bytes
were available (`in_waiting` non-zero) no flush check runs — every event
such an iteration emits is a red error event, never a frame line. -/
theorem C4_flush_condition (cfg : SerialForwarderThread) (st : WorkerState)
    (now_ns : Int) (ts : Timestamp) :
    (((flush_frame_if_due cfg st now_ns ts false).events ≠ []) ↔
      (st.msg_buffer ≠ [] ∧
        3 * cfg.flush_gap_ns ≤ 2 * (now_ns - st.last_rx_ns))) ∧
    (∀ inp : PollInput, inp.in_wait ≠ 0 →
      ∀ e ∈ (runStep cfg st inp).events, e.color = "red") := by
  constructor
  · unfold flush_frame_if_due
    by_cases hb : st.msg_buffer = []
    · simp [hb]
    · rw [if_neg hb]
      by_cases hc : 3 * cfg.flush_gap_ns ≤ 2 * (now_ns - st.last_rx_ns)
      · rw [if_pos hc]
        simp [emitLocked, hb, hc]
      · rw [if_neg hc]
        simp [hb, hc]
  · intro inp hin e he
    unfold runStep at he
    rw [if_pos hin] at he
    by_cases hd : inp.data ≠ []
    · rw [if_pos hd] at he
      unfold append_rx at he
      rw [if_neg hd] at he
      by_cases hw : inp.write_ok
      · simp [hw] at he
      · simp only [hw] at he
        by_cases her : inp.emit_raises
        · simp [emitLocked, her] at he
        · simp [emitLocked, her] at he
          rw [he]
    · rw [if_neg hd] at he
      simp at he

/-- C4, witness: the amended flush condition at a concrete input where the
flush fires. -/
theorem C4_flush_condition_witness :
    (flush_frame_if_due cfgHi ⟨[65], 1000000, 1000000⟩ 1150000 ts0
      false).events ≠ [] :=
  ((C4_flush_condition cfgHi ⟨[65], 1000000, 1000000⟩ 1150000 ts0).1).mpr
    (by decide)

/-- C1, code-bug demonstration: at 9600 baud (`flush_gap_ns = 3124998`) a
worker stopped one poll interval (520833 ns) after its last byte arrived
still has `[0x41]` buffered; the final flush after the loop calls
`_flush_frame_if_due(time.time_ns() + flush_gap_ns + 1)`, whose idle check
`now - last_rx >= flush_gap * 1.5` then reads
`3645832 + 3124999 >= 4687497` — false — so no event is emitted and the
buffered frame is silently dropped, contradicting the claim (and the
code's own comment) that the final flush is guaranteed to fire. -/
theorem C1_shutdown_flush_drops_recent_bytes :
    (final_flush cfg96 ⟨[65], 1000000000, 1000000000⟩ (1000000000 + 520833)
        ts0 false).events = [] ∧
    (final_flush cfg96 ⟨[65], 1000000000, 1000000000⟩ (1000000000 + 520833)
        ts0 false).state.msg_buffer = [65] := by
  decide

/-- C2, counterexample: in `_append_rx` the destination write happens after
the frame-timing bookkeeping, not before it: in the action trace of a
concrete append (fresh state, one byte, successful write) the write-attempt
action does not precede the timing actions, refuting the claimed
write-before-timing ordering. -/
theorem C2_write_first_counterexample :
    ¬ (∀ i j : Fin (append_rx cfg96 initState [65] 5 true "" false).actions.length,
        isWriteAct ((append_rx cfg96 initState [65] 5 true "" false).actions.get i) = true →
        isTimingAct ((append_rx cfg96 initState [65] 5 true "" false).actions.get j) = true →
        (i : ℕ) < (j : ℕ)) := by
  decide

/-- C2 (amended): for every non-empty batch, the worker's append step
performs exactly one destination write, of exactly the batch it read (same
bytes, same order), within the same step — but the write comes after the
frame-timing bookkeeping (start-timestamp, accumulator append,
last-received update), which forms the whole part of the trace before it;
only emission actions can follow it. -/
theorem C2_forward_after_timing (cfg : SerialForwarderThread)
    (st : WorkerState) (data : List Nat) (now_ns : Int) (write_ok : Bool)
    (emsg : String) (emit_raises : Bool) (hd : data ≠ []) :
    ∃ pre post,
      (append_rx cfg st data now_ns write_ok emsg emit_raises).actions =
        pre ++ [WAction.writeAttempt data write_ok] ++ post ∧
      (∀ a ∈ pre, isTimingAct a = true) ∧
      (∀ a ∈ post, isTimingAct a = false ∧ isWriteAct a = false) := by
  refine ⟨(if st.msg_buffer = [] then [WAction.setMsgStart now_ns] else []) ++
      [WAction.bufExtend data, WAction.setLastRx now_ns],
    if write_ok then []
      else (emitLocked cfg ⟨errWriteText cfg emsg, "red"⟩ emit_raises).1,
    ?_, ?_, ?_⟩
  · unfold append_rx
    rw [if_neg hd]
    by_cases hw : write_ok <;> simp [hw]
  · intro a ha
    by_cases hb : st.msg_buffer = [] <;> simp [hb] at ha <;>
      rcases ha with h | h | h <;> simp_all [isTimingAct]
  · intro a ha
    by_cases hw : write_ok
    · simp [hw] at ha
    · simp only [hw, if_neg] at ha
      unfold emitLocked at ha
      by_cases hmx : cfg.has_mutex <;> simp [hmx] at ha <;>
        rcases ha with h | h | h <;> simp_all [isTimingAct, isWriteAct]

/-- C2, witness: the amended ordering at a concrete input. -/
theorem C2_forward_after_timing_witness :
    ∃ pre post,
      (append_rx cfg96 initState [65] 5 true "" false).actions =
        pre ++ [WAction.writeAttempt [65] true] ++ post ∧
      (∀ a ∈ pre, isTimingAct a = true) ∧
      (∀ a ∈ post, isTimingAct a = false ∧ isWriteAct a = false) :=
  C2_forward_after_timing cfg96 initState [65] 5 true "" false (by decide)

/-- Every uppercase hex digit of a value below 16 is one of the sixteen hex
characters. -/
theorem hexDigit_mem_hexChars : ∀ n : Fin 16, hexDigit n.val ∈ hexChars := by
  decide

/-- C5: when a flush fires (with a successful emit), the single emitted
event is the direction tag, a space, the timestamp rendered as
`DD/MM/YYYY HH:MM:SS.ffffff`, a ` : ` separator, the buffered bytes as
uppercase two-character hex octets joined by single spaces, and a trailing
newline; each octet is exactly two uppercase hex characters; and afterwards
the accumulator is empty with both timestamps reset to zero. -/
theorem C5_flush_event_format (cfg : SerialForwarderThread)
    (st : WorkerState) (now_ns : Int) (ts : Timestamp)
    (h1 : st.msg_buffer ≠ [])
    (h2 : 3 * cfg.flush_gap_ns ≤ 2 * (now_ns - st.last_rx_ns))
    (hb : ∀ b ∈ st.msg_buffer, b < 256) :
    (flush_frame_if_due cfg st now_ns ts false).events =
      [⟨(if cfg.direction = .AtoB then "[A->B]" else "[A<-B]") ++ " " ++
          (pad 2 ts.day ++ "/" ++ pad 2 ts.month ++ "/" ++ pad 4 ts.year ++
            " " ++ pad 2 ts.hour ++ ":" ++ pad 2 ts.minute ++ ":" ++
            pad 2 ts.second ++ "." ++ pad 6 ts.microsecond) ++ " : " ++
          String.intercalate " " (st.msg_buffer.map byteHex) ++ "\n",
        frameColor cfg⟩] ∧
    (∀ b ∈ st.msg_buffer, (byteHex b).length = 2 ∧
      ∀ c ∈ (byteHex b).toList, c ∈ hexChars) ∧
    (flush_frame_if_due cfg st now_ns ts false).state.msg_buffer = [] ∧
    (flush_frame_if_due cfg st now_ns ts false).state.msg_start_ns = 0 ∧
    (flush_frame_if_due cfg st now_ns ts false).state.last_rx_ns = 0 := by
  have hout : flush_frame_if_due cfg st now_ns ts false =
      ⟨⟨[], 0, 0⟩, [⟨frameText cfg st.msg_buffer ts, frameColor cfg⟩],
        (emitLocked cfg ⟨frameText cfg st.msg_buffer ts, frameColor cfg⟩
          false).1, false⟩ := by
    unfold flush_frame_if_due
    rw [if_neg h1, if_pos h2]
    simp [emitLocked]
  refine ⟨?_, ?_, by rw [hout], by rw [hout], by rw [hout]⟩
  · rw [hout]
    simp only [frameText, strftime]
  · intro b hbmem
    have hlt := hb b hbmem
    have hdiv : b / 16 < 16 := by omega
    have hmod : b % 16 < 16 := Nat.mod_lt _ (by norm_num)
    refine ⟨rfl, ?_⟩
    intro c hc
    have hor : c = hexDigit (b / 16) ∨ c = hexDigit (b % 16) := by
      simpa [byteHex, String.toList] using hc
    rcases hor with h | h
    · rw [h]; exact hexDigit_mem_hexChars ⟨b / 16, hdiv⟩
    · rw [h]; exact hexDigit_mem_hexChars ⟨b % 16, hmod⟩

/-- C5, witness: concrete flush of the two bytes `0x41 0xAB` at 9600 baud. -/
theorem C5_flush_event_format_witness :
    (flush_frame_if_due cfg96 ⟨[65, 171], 100, 100⟩ 100000000 ts0
      false).state.msg_buffer = [] :=
  (C5_flush_event_format cfg96 ⟨[65, 171], 100, 100⟩ 100000000 ts0
    (by decide) (by decide) (by decide)).2.2.1

/-- C6: when the destination write of a non-empty batch fails, the append
step emits exactly one direction-tagged red error event, propagates no
exception (the loop continues), still retains the batch at the end of the
accumulator, and any later flush whose idle condition holds emits the frame
event whose payload is the old buffer followed by that batch. -/
theorem C6_write_failure_independent (cfg : SerialForwarderThread)
    (st : WorkerState) (data : List Nat) (now_ns : Int) (emsg : String)
    (hd : data ≠ []) :
    (append_rx cfg st data now_ns false emsg false).events =
      [⟨"[ERROR] write(" ++ dirName cfg.direction ++ ") -> " ++ emsg ++ "\n",
        "red"⟩] ∧
    (append_rx cfg st data now_ns false emsg false).raises = false ∧
    (append_rx cfg st data now_ns false emsg false).state.msg_buffer =
      st.msg_buffer ++ data ∧
    (∀ now2 : Int, 3 * cfg.flush_gap_ns ≤ 2 * (now2 - now_ns) →
      ∀ ts : Timestamp,
        (flush_frame_if_due cfg
            (append_rx cfg st data now_ns false emsg false).state now2 ts
            false).events =
          [⟨frameText cfg (st.msg_buffer ++ data) ts, frameColor cfg⟩]) := by
  have happ : (append_rx cfg st data now_ns false emsg false).state =
      ⟨st.msg_buffer ++ data,
        if st.msg_buffer = [] then now_ns else st.msg_start_ns, now_ns⟩ := by
    unfold append_rx
    rw [if_neg hd]
    simp
  refine ⟨?_, ?_, by rw [happ], ?_⟩
  · unfold append_rx
    rw [if_neg hd]
    simp [emitLocked, errWriteText]
  · unfold append_rx
    rw [if_neg hd]
    simp
  · intro now2 hgap ts
    rw [happ]
    unfold flush_frame_if_due
    rw [if_neg (by simp [hd]), if_pos (by simpa using hgap)]
    simp [emitLocked]

/-- C6, witness: a concrete failed write whose batch is still flushed. -/
theorem C6_write_failure_independent_witness :
    (append_rx cfg96 initState [65] 5 false "boom" false).state.msg_buffer =
      [] ++ [65] :=
  (C6_write_failure_independent cfg96 initState [65] 5 "boom"
    (by decide)).2.2.1

/-- C7: with the shared mutex present, every emission of any of the three
emission sites — frame flush, failed-write error, loop-error handler — is
bracketed as lock-acquire, emit, lock-release in the effect trace, for both
a succeeding and a raising emit call (the release sits in a `finally`). -/
theorem C7_emit_lock_bracketing (cfg : SerialForwarderThread)
    (hm : cfg.has_mutex = true) :
    (∀ st : WorkerState, ∀ now_ns : Int, ∀ ts : Timestamp, ∀ er : Bool,
      emitsLocked (flush_frame_if_due cfg st now_ns ts er).actions = true) ∧
    (∀ st : WorkerState, ∀ data : List Nat, ∀ now_ns : Int, ∀ ok : Bool,
      ∀ emsg : String, ∀ er : Bool,
      emitsLocked (append_rx cfg st data now_ns ok emsg er).actions = true) ∧
    (∀ emsg : String, ∀ er : Bool,
      emitsLocked (loop_error_handler cfg emsg er).1 = true) := by
  refine ⟨?_, ?_, ?_⟩
  · intro st now_ns ts er
    unfold flush_frame_if_due
    by_cases hbuf : st.msg_buffer = []
    · simp [hbuf, emitsLocked]
    · rw [if_neg hbuf]
      by_cases hc : 3 * cfg.flush_gap_ns ≤ 2 * (now_ns - st.last_rx_ns)
      · rw [if_pos hc]
        by_cases her : er <;> simp [her, emitLocked, hm, emitsLocked]
      · rw [if_neg hc]
        simp [emitsLocked]
  · intro st data now_ns ok emsg er
    unfold append_rx
    by_cases hdata : data = []
    · simp [hdata, emitsLocked]
    · rw [if_neg hdata]
      by_cases hbuf : st.msg_buffer = [] <;>
        by_cases hok : ok <;>
          simp [hbuf, hok, emitLocked, hm, emitsLocked]
  · intro emsg er
    simp [loop_error_handler, emitLocked, hm, emitsLocked]

/-- C7, witness: the loop-error emission trace with a raising emit is still
bracketed. -/
theorem C7_emit_lock_bracketing_witness :
    emitsLocked (loop_error_handler cfg96 "boom" true).1 = true :=
  (C7_emit_lock_bracketing cfg96 (by decide)).2.2 "boom" true

/-- C8: if either port open fails during `connect_ports`, the failure is
surfaced (error dialog), every endpoint handle that is open gets closed,
both handle attributes end up `None`, and no worker is created or started. -/
theorem C8_connect_failure_cleanup (st : AppState) (openA_ok openB_ok : Bool)
    (h : openA_ok = false ∨ openB_ok = false) :
    (connect_ports st openA_ok openB_ok).1.serial_A = none ∧
    (connect_ports st openA_ok openB_ok).1.serial_B = none ∧
    (connect_ports st openA_ok openB_ok).1.thread_AtoB = st.thread_AtoB ∧
    (connect_ports st openA_ok openB_ok).1.thread_BtoA = st.thread_BtoA ∧
    SupAction.showError ∈ (connect_ports st openA_ok openB_ok).2 ∧
    (∀ d : Direction,
      SupAction.startWorker d ∉ (connect_ports st openA_ok openB_ok).2) ∧
    (openA_ok = true →
      SupAction.closePortA ∈ (connect_ports st openA_ok openB_ok).2) := by
  rcases st with ⟨sA, sB, tA, tB⟩
  cases openA_ok with
  | true =>
    cases openB_ok with
    | true => rcases h with h | h <;> simp at h
    | false =>
      rcases sA with _ | bA <;> (try cases bA) <;>
        rcases sB with _ | bB <;> (try cases bB) <;>
          cases tA <;> cases tB <;> decide
  | false =>
    cases openB_ok <;>
      rcases sA with _ | bA <;> (try cases bA) <;>
        rcases sB with _ | bB <;> (try cases bB) <;>
          cases tA <;> cases tB <;> decide

/-- C8, witness: port B failing to open after port A opened: A is closed
again. -/
theorem C8_connect_failure_cleanup_witness :
    SupAction.closePortA ∈
      (connect_ports ⟨none, none, false, false⟩ true false).2 :=
  (C8_connect_failure_cleanup ⟨none, none, false, false⟩ true false
    (Or.inr rfl)).2.2.2.2.2.2 rfl

/-- C9: in `disconnect_ports` every worker stop/join action strictly
precedes every endpoint close action in the effect trace, and each held
worker is both stopped and joined (`wait()` returns only after `run()` has
finished, final flush included), so no worker touches an endpoint after
that endpoint is closed. -/
theorem C9_disconnect_stop_before_close (st : AppState) :
    (∀ i j : Fin (disconnect_ports st).2.length,
      isStopOrWaitAct ((disconnect_ports st).2.get i) = true →
      isCloseAct ((disconnect_ports st).2.get j) = true →
      (i : ℕ) < (j : ℕ)) ∧
    (st.thread_AtoB = true →
      SupAction.stopWorker .AtoB ∈ (disconnect_ports st).2 ∧
      SupAction.waitWorker .AtoB ∈ (disconnect_ports st).2) ∧
    (st.thread_BtoA = true →
      SupAction.stopWorker .BtoA ∈ (disconnect_ports st).2 ∧
      SupAction.waitWorker .BtoA ∈ (disconnect_ports st).2) := by
  rcases st with ⟨sA, sB, tA, tB⟩
  cases tA <;> cases tB <;>
    rcases sA with _ | bA <;> (try cases bA) <;>
      rcases sB with _ | bB <;> (try cases bB) <;> decide

/-- C9, witness: with both workers held and both ports open, the A-to-B
worker is stopped (and similarly joined) before any close. -/
theorem C9_disconnect_stop_before_close_witness :
    SupAction.stopWorker Direction.AtoB ∈
      (disconnect_ports ⟨some true, some true, true, true⟩).2 :=
  ((C9_disconnect_stop_before_close
    ⟨some true, some true, true, true⟩).2.1 rfl).1

/-- C10: the invariant "accumulator empty iff start timestamp is zero iff
last-received timestamp is zero" holds initially and is preserved by every
append (with a positive arrival timestamp) and every flush, for either
write outcome and either emit outcome; consequently a flush emits an event
only from a non-empty accumulator, so no frame event ever has an empty
payload. -/
theorem C10_buffer_timestamp_invariant (cfg : SerialForwarderThread) :
    WInv initState ∧
    (∀ st : WorkerState, ∀ data : List Nat, ∀ now_ns : Int, ∀ ok : Bool,
      ∀ emsg : String, ∀ er : Bool, WInv st → 0 < now_ns →
      WInv (append_rx cfg st data now_ns ok emsg er).state) ∧
    (∀ st : WorkerState, ∀ now_ns : Int, ∀ ts : Timestamp, ∀ er : Bool,
      WInv st → WInv (flush_frame_if_due cfg st now_ns ts er).state) ∧
    (∀ st : WorkerState, ∀ now_ns : Int, ∀ ts : Timestamp, ∀ er : Bool,
      (flush_frame_if_due cfg st now_ns ts er).events ≠ [] →
      st.msg_buffer ≠ []) := by
  refine ⟨by decide, ?_, ?_, ?_⟩
  · intro st data now_ns ok emsg er hinv hpos
    by_cases hdata : data = []
    · have hstate : (append_rx cfg st data now_ns ok emsg er).state = st := by
        unfold append_rx
        simp [hdata]
      rw [hstate]
      exact hinv
    · have hstate : (append_rx cfg st data now_ns ok emsg er).state =
          ⟨st.msg_buffer ++ data,
            if st.msg_buffer = [] then now_ns else st.msg_start_ns,
            now_ns⟩ := by
        unfold append_rx
        rw [if_neg hdata]
        by_cases hok : ok <;> simp [hok]
      rw [hstate]
      unfold WInv
      simp only
      have hne : st.msg_buffer ++ data ≠ [] := by simp [hdata]
      refine ⟨⟨fun hcontra => absurd hcontra hne, fun hstart => ?_⟩,
        ⟨fun hcontra => absurd hcontra hne, fun hlast => ?_⟩⟩
      · exfalso
        by_cases hbuf : st.msg_buffer = []
        · rw [if_pos hbuf] at hstart
          omega
        · rw [if_neg hbuf] at hstart
          exact hbuf (hinv.1.mpr hstart)
      · exact absurd hlast (by omega)
  · intro st now_ns ts er hinv
    unfold flush_frame_if_due
    by_cases hbuf : st.msg_buffer = []
    · simpa [hbuf] using hinv
    · rw [if_neg hbuf]
      by_cases hc : 3 * cfg.flush_gap_ns ≤ 2 * (now_ns - st.last_rx_ns)
      · rw [if_pos hc]
        cases er
        · exact (by decide : WInv (⟨[], 0, 0⟩ : WorkerState))
        · exact hinv
      · rw [if_neg hc]
        exact hinv
  · intro st now_ns ts er hev
    by_contra hbuf
    unfold flush_frame_if_due at hev
    rw [if_pos hbuf] at hev
    exact hev rfl

/-- C10, witness: the invariant after appending one byte to a fresh worker. -/
theorem C10_buffer_timestamp_invariant_witness :
    WInv (append_rx cfg96 initState [65] 5 true "" false).state :=
  (C10_buffer_timestamp_invariant cfg96).2.1 initState [65] 5 true "" false
    (by decide) (by decide)

end TermiCOM
